import Mathlib

/-!
Verification of the ASCII post-processing pipeline of the shader-3d-solids
repository. The two fragment shaders (the Three.js GLSL backend in
`src/ascii-shader.ts` and the WebGPU WGSL backend) are shallowly embedded
over exact rational arithmetic: GLSL `floor`/`fract` become `floorQ`/`fractQ`
on `ℚ`, textures become functions from UV coordinates to RGBA samples, and
the `ThreeRenderer.resize` method becomes a pure state transformer.
-/

/-- GLSL floor on rationals: the greatest integer below, returned as a rational. -/
def floorQ (x : ℚ) : ℚ := (⌊x⌋ : ℚ)

/-- GLSL fract on rationals: `x - floor(x)`. -/
def fractQ (x : ℚ) : ℚ := x - floorQ x

/-- A 2-component vector of rationals (GLSL vec2 / WGSL vec2f). -/
structure Vec2 where
  x : ℚ
  y : ℚ
deriving DecidableEq, Repr

/-- A 3-component vector of rationals (GLSL vec3 / WGSL vec3f). -/
structure Vec3 where
  x : ℚ
  y : ℚ
  z : ℚ
deriving DecidableEq, Repr

/-- An RGBA sample (GLSL vec4 / WGSL vec4f). -/
structure Vec4 where
  r : ℚ
  g : ℚ
  b : ℚ
  a : ℚ
deriving DecidableEq, Repr

/-- The character ramp from `ascii-shader.ts`: `const CHAR_SET = ".:-=+*%#@"`. -/
def CHAR_SET : String := ".:-=+*%#@"

/-- The character count used by both backends: `CHAR_SET.length`. -/
def charCount : ℕ := CHAR_SET.length

theorem charCount_eq : charCount = 9 := rfl

/-- Line 96 of `ascii-shader.ts` / line 93 of the WGSL shader:
`luminance = 1.0 - dot(sceneColor.rgb, vec3(0.299, 0.587, 0.114))`. -/
def luminanceOf (r g b : ℚ) : ℚ :=
  1 - (r * (299 / 1000) + g * (587 / 1000) + b * (114 / 1000))

/-- Line 101 of `ascii-shader.ts` / line 95 of the WGSL shader:
`charIndex = floor(luminance * (uCharCount - 1.0))`. -/
def charIndexOf (uCharCount luminance : ℚ) : ℚ :=
  floorQ (luminance * (uCharCount - 1))

/-- The intermediate values (steps 1 through 8 of the composite algorithm)
computed by a backend fragment shader before the final color combination. -/
structure Intermediates where
  gridDims : Vec2
  cellUv : Vec2
  sceneColor : Vec4
  luminance : ℚ
  charIndex : ℚ
  uvInCell : Vec2
  fontU : ℚ
  fontV : ℚ
deriving DecidableEq, Repr

/-- Steps 1-8 of the Three.js backend fragment shader
(`AsciiShader.fragmentShader`, lines 83-113 of `ascii-shader.ts`),
with the scene texture `tDiffuse` modelled as a function of UV. -/
def threeIntermediates (tDiffuse : Vec2 → Vec4) (uCharCount : ℚ)
    (uResolution : Vec2) (uFontSize : ℚ) (vUv : Vec2) : Intermediates :=
  let gridDims : Vec2 := ⟨uResolution.x / uFontSize, uResolution.y / uFontSize⟩
  let cellUv : Vec2 :=
    ⟨floorQ (vUv.x * gridDims.x) / gridDims.x, floorQ (vUv.y * gridDims.y) / gridDims.y⟩
  let sceneColor : Vec4 := tDiffuse cellUv
  let luminance : ℚ := luminanceOf sceneColor.r sceneColor.g sceneColor.b
  let charIndex : ℚ := charIndexOf uCharCount luminance
  let uvInCell : Vec2 := ⟨fractQ (vUv.x * gridDims.x), fractQ (vUv.y * gridDims.y)⟩
  let fontU : ℚ := (charIndex + uvInCell.x) / uCharCount
  let fontV : ℚ := uvInCell.y
  ⟨gridDims, cellUv, sceneColor, luminance, charIndex, uvInCell, fontU, fontV⟩

/-- The full Three.js backend fragment shader: steps 1-8 followed by
line 121, `gl_FragColor = vec4(uColor, fontColor.r * sceneColor.a)`. -/
def threeFragmentShader (tDiffuse tFont : Vec2 → Vec4) (uCharCount : ℚ)
    (uResolution : Vec2) (uFontSize : ℚ) (uColor uBgColor : Vec3) (vUv : Vec2) : Vec4 :=
  let i := threeIntermediates tDiffuse uCharCount uResolution uFontSize vUv
  let fontColor := tFont ⟨i.fontU, i.fontV⟩
  ⟨uColor.x, uColor.y, uColor.z, fontColor.r * i.sceneColor.a⟩

/-- The WGSL uniform struct `AsciiParams` of the WebGPU backend. -/
structure AsciiParams where
  uCharCount : ℚ
  uFontSize : ℚ
  uResolution : Vec2
  uColor : Vec3
  uBgColor : Vec3
deriving DecidableEq, Repr

/-- Steps 1-8 of the WebGPU backend fragment shader (`asciiFragmentShader`,
lines 88-99 of the WGSL source). -/
def gpuIntermediates (tDiffuse : Vec2 → Vec4) (params : AsciiParams)
    (uv : Vec2) : Intermediates :=
  let gridDims : Vec2 :=
    ⟨params.uResolution.x / params.uFontSize, params.uResolution.y / params.uFontSize⟩
  let cellUv : Vec2 :=
    ⟨floorQ (uv.x * gridDims.x) / gridDims.x, floorQ (uv.y * gridDims.y) / gridDims.y⟩
  let sceneColor : Vec4 := tDiffuse cellUv
  let luminance : ℚ := luminanceOf sceneColor.r sceneColor.g sceneColor.b
  let charIndex : ℚ := charIndexOf params.uCharCount luminance
  let uvInCell : Vec2 := ⟨fractQ (uv.x * gridDims.x), fractQ (uv.y * gridDims.y)⟩
  let fontU : ℚ := (charIndex + uvInCell.x) / params.uCharCount
  let fontV : ℚ := uvInCell.y
  ⟨gridDims, cellUv, sceneColor, luminance, charIndex, uvInCell, fontU, fontV⟩

/-- The full WebGPU backend fragment shader: steps 1-8 followed by line 103,
`return vec4f(sceneColor.rgb * fontColor.r, sceneColor.a * fontColor.r)`. -/
def gpuFragmentShader (tDiffuse tFont : Vec2 → Vec4) (params : AsciiParams)
    (uv : Vec2) : Vec4 :=
  let i := gpuIntermediates tDiffuse params uv
  let fontColor := tFont ⟨i.fontU, i.fontV⟩
  ⟨i.sceneColor.r * fontColor.r, i.sceneColor.g * fontColor.r,
   i.sceneColor.b * fontColor.r, i.sceneColor.a * fontColor.r⟩

/-- Shared bound: for `luminance ∈ [0,1]` and `1 ≤ n`, the character index
`floor(luminance * (n-1))` lies in `[0, n-1]`. -/
lemma charIndexOf_bounds (n lum : ℚ) (h0 : 0 ≤ lum) (h1 : lum ≤ 1) (hn : 1 ≤ n) :
    0 ≤ charIndexOf n lum ∧ charIndexOf n lum ≤ n - 1 := by
  unfold charIndexOf floorQ
  constructor
  · exact_mod_cast Int.floor_nonneg.mpr (mul_nonneg h0 (by linarith))
  · calc ((⌊lum * (n - 1)⌋ : ℤ) : ℚ) ≤ lum * (n - 1) := Int.floor_le _
      _ ≤ 1 * (n - 1) := mul_le_mul_of_nonneg_right h1 (by linarith)
      _ = n - 1 := one_mul _

/-- C1: for every luminance value in [0,1] and every character count `n ≥ 2`,
the composite pass's character index `floor(luminance * (n-1))` lies
within `[0, n-1]`. -/
theorem charIndex_in_range (lum n : ℚ) (h0 : 0 ≤ lum) (h1 : lum ≤ 1) (hn : 2 ≤ n) :
    0 ≤ charIndexOf n lum ∧ charIndexOf n lum ≤ n - 1 :=
  charIndexOf_bounds n lum h0 h1 (by linarith)

theorem charIndex_in_range_witness :
    (0 : ℚ) ≤ 1 / 2 ∧ (1 : ℚ) / 2 ≤ 1 ∧ (2 : ℚ) ≤ 9 ∧
      (0 ≤ charIndexOf 9 (1 / 2) ∧ charIndexOf 9 (1 / 2) ≤ 9 - 1) :=
  ⟨by norm_num, by norm_num, by norm_num,
    charIndex_in_range (1 / 2) 9 (by norm_num) (by norm_num) (by norm_num)⟩

/-- C2: for pre-inversion brightnesses `a < b` in [0,1], the inverted
luminances satisfy `1 - a > 1 - b`, and the character indices with the
code's ramp length satisfy `charIndex(1-a) ≥ charIndex(1-b)`: a brighter
scene pixel never yields a denser glyph index than a darker one. -/
theorem inversion_monotone (a b : ℚ) (ha0 : 0 ≤ a) (ha1 : a ≤ 1)
    (hb0 : 0 ≤ b) (hb1 : b ≤ 1) (hab : a < b) :
    1 - a > 1 - b ∧
      charIndexOf (charCount : ℚ) (1 - b) ≤ charIndexOf (charCount : ℚ) (1 - a) := by
  constructor
  · linarith
  · unfold charIndexOf floorQ
    have hmul : (1 - b) * ((charCount : ℚ) - 1) ≤ (1 - a) * ((charCount : ℚ) - 1) := by
      rw [charCount_eq]
      push_cast
      nlinarith
    exact_mod_cast Int.floor_le_floor hmul

theorem inversion_monotone_witness :
    (0 : ℚ) ≤ 0 ∧ (0 : ℚ) ≤ 1 ∧ (0 : ℚ) ≤ 1 ∧ (1 : ℚ) ≤ 1 ∧ (0 : ℚ) < 1 ∧
      (1 - (0 : ℚ) > 1 - 1 ∧
        charIndexOf (charCount : ℚ) (1 - 1) ≤ charIndexOf (charCount : ℚ) (1 - 0)) :=
  ⟨by norm_num, by norm_num, by norm_num, by norm_num, by norm_num,
    inversion_monotone 0 1 (by norm_num) (by norm_num) (by norm_num) (by norm_num)
      (by norm_num)⟩

/-- C3: with the ramp ".:-=+*%#@" (N = 9), a fully black scene sample
(0,0,0) yields inverted luminance 1 and character index 8, selecting the
densest glyph `@`; a fully white sample (1,1,1) yields inverted luminance 0
and character index 0, selecting the sparsest glyph `.`. -/
theorem black_white_endpoints :
    luminanceOf 0 0 0 = 1 ∧
      charIndexOf (charCount : ℚ) (luminanceOf 0 0 0) = 8 ∧
      CHAR_SET.data.getD 8 ' ' = '@' ∧
      luminanceOf 1 1 1 = 0 ∧
      charIndexOf (charCount : ℚ) (luminanceOf 1 1 1) = 0 ∧
      CHAR_SET.data.getD 0 ' ' = '.' := by
  refine ⟨by norm_num [luminanceOf], ?_, rfl, by norm_num [luminanceOf], ?_, rfl⟩
  · norm_num [luminanceOf, charIndexOf, floorQ, charCount_eq]
  · norm_num [luminanceOf, charIndexOf, floorQ, charCount_eq]

/-- C4 counterexample inputs: a scene texture that is constant white with
full alpha, and a font texture that is constant zero (no glyph ink). -/
def whiteScene : Vec2 → Vec4 := fun _ => ⟨1, 1, 1, 1⟩

/-- Constant-zero font texture: `fontSample.r = 0` everywhere. -/
def blankFont : Vec2 → Vec4 := fun _ => ⟨0, 0, 0, 0⟩

/-- C4 counterexample: the Three.js backend outputs RGB equal to `uColor`
itself, not `uColor` multiplied by `fontSample.r`. With `uColor = (1,1,1)`
and a font sample whose red channel is 0, the output is `(1,1,1,0)`,
whereas a `fontSample.r`-modulated RGB would be `(0,0,0)`. -/
theorem three_rgb_not_modulated :
    threeFragmentShader whiteScene blankFont 9 ⟨640, 480⟩ 10 ⟨1, 1, 1⟩ ⟨0, 0, 0⟩
        ⟨1 / 2, 1 / 2⟩ = ⟨1, 1, 1, 0⟩ ∧
      (⟨1, 1, 1, 0⟩ : Vec4) ≠ ⟨1 * 0, 1 * 0, 1 * 0, 0 * 1⟩ := by
  constructor
  · simp [threeFragmentShader, threeIntermediates, whiteScene, blankFont]
  · norm_num [Vec4.mk.injEq]

/-- C4 amended: the WebGPU backend's final color is
`sceneColor.rgb * fontSample.r` with alpha `sceneColor.a * fontSample.r`;
the Three.js backend's final RGB is `uColor` unmodulated, and the glyph
coverage `fontSample.r` enters only through the alpha channel, as
`fontSample.r * sceneColor.a`. -/
theorem backend_output_formulas (tDiffuse tFont : Vec2 → Vec4)
    (params : AsciiParams) (uv : Vec2) :
    gpuFragmentShader tDiffuse tFont params uv =
        ⟨(gpuIntermediates tDiffuse params uv).sceneColor.r *
            (tFont ⟨(gpuIntermediates tDiffuse params uv).fontU,
              (gpuIntermediates tDiffuse params uv).fontV⟩).r,
          (gpuIntermediates tDiffuse params uv).sceneColor.g *
            (tFont ⟨(gpuIntermediates tDiffuse params uv).fontU,
              (gpuIntermediates tDiffuse params uv).fontV⟩).r,
          (gpuIntermediates tDiffuse params uv).sceneColor.b *
            (tFont ⟨(gpuIntermediates tDiffuse params uv).fontU,
              (gpuIntermediates tDiffuse params uv).fontV⟩).r,
          (gpuIntermediates tDiffuse params uv).sceneColor.a *
            (tFont ⟨(gpuIntermediates tDiffuse params uv).fontU,
              (gpuIntermediates tDiffuse params uv).fontV⟩).r⟩ ∧
      threeFragmentShader tDiffuse tFont params.uCharCount params.uResolution
          params.uFontSize params.uColor params.uBgColor uv =
        ⟨params.uColor.x, params.uColor.y, params.uColor.z,
          (tFont ⟨(threeIntermediates tDiffuse params.uCharCount params.uResolution
              params.uFontSize uv).fontU,
            (threeIntermediates tDiffuse params.uCharCount params.uResolution
              params.uFontSize uv).fontV⟩).r *
          (threeIntermediates tDiffuse params.uCharCount params.uResolution
            params.uFontSize uv).sceneColor.a⟩ :=
  ⟨rfl, rfl⟩

/-- C5: the two backend fragment shaders compute identical intermediate
values for steps 1 through 8 of the composite algorithm (gridDims, cellUv,
scene sample, inverted luminance, charIndex, uvInCell, fontU, fontV), for
every input. -/
theorem backends_agree_on_intermediates (tDiffuse : Vec2 → Vec4)
    (params : AsciiParams) (uv : Vec2) :
    threeIntermediates tDiffuse params.uCharCount params.uResolution
        params.uFontSize uv = gpuIntermediates tDiffuse params uv :=
  rfl

/-- C6: if the scene sample's alpha at the cell's sample point is 0, the
final composited alpha is 0 in both backend output variants, regardless of
the font-atlas sample. -/
theorem zero_scene_alpha_zero_output_alpha (tDiffuse tFont : Vec2 → Vec4)
    (params : AsciiParams) (uv : Vec2)
    (h : (threeIntermediates tDiffuse params.uCharCount params.uResolution
        params.uFontSize uv).sceneColor.a = 0) :
    (threeFragmentShader tDiffuse tFont params.uCharCount params.uResolution
        params.uFontSize params.uColor params.uBgColor uv).a = 0 ∧
      (gpuFragmentShader tDiffuse tFont params uv).a = 0 := by
  have hg : (gpuIntermediates tDiffuse params uv).sceneColor.a = 0 := h
  constructor
  · show (tFont _).r *
        (threeIntermediates tDiffuse params.uCharCount params.uResolution
          params.uFontSize uv).sceneColor.a = 0
    rw [h, mul_zero]
  · show (gpuIntermediates tDiffuse params uv).sceneColor.a * (tFont _).r = 0
    rw [hg, zero_mul]

/-- A transparent scene texture used to witness C6 concretely. -/
def clearScene : Vec2 → Vec4 := fun _ => ⟨0, 0, 0, 0⟩

/-- Constant-one font texture (full glyph ink everywhere). -/
def inkFont : Vec2 → Vec4 := fun _ => ⟨1, 1, 1, 1⟩

theorem zero_scene_alpha_zero_output_alpha_witness :
    (threeIntermediates clearScene (⟨9, 10, ⟨640, 480⟩, ⟨1, 1, 1⟩, ⟨0, 0, 0⟩⟩ :
          AsciiParams).uCharCount
        (⟨9, 10, ⟨640, 480⟩, ⟨1, 1, 1⟩, ⟨0, 0, 0⟩⟩ : AsciiParams).uResolution
        (⟨9, 10, ⟨640, 480⟩, ⟨1, 1, 1⟩, ⟨0, 0, 0⟩⟩ : AsciiParams).uFontSize
        ⟨1 / 2, 1 / 2⟩).sceneColor.a = 0 ∧
      ((threeFragmentShader clearScene inkFont 9 ⟨640, 480⟩ 10 ⟨1, 1, 1⟩ ⟨0, 0, 0⟩
          ⟨1 / 2, 1 / 2⟩).a = 0 ∧
        (gpuFragmentShader clearScene inkFont ⟨9, 10, ⟨640, 480⟩, ⟨1, 1, 1⟩, ⟨0, 0, 0⟩⟩
          ⟨1 / 2, 1 / 2⟩).a = 0) :=
  ⟨rfl,
    zero_scene_alpha_zero_output_alpha clearScene inkFont
      ⟨9, 10, ⟨640, 480⟩, ⟨1, 1, 1⟩, ⟨0, 0, 0⟩⟩ ⟨1 / 2, 1 / 2⟩ rfl⟩

/-- The resize-relevant state of `ThreeRenderer` (`three-renderer.ts`).
The four nullable fields checked by `resize`'s guard are modelled by
presence flags; the remaining fields are the quantities `resize` reads or
writes plus the ASCII uniforms it must leave untouched. The font atlas
texture is modelled by an identifier. -/
structure ThreeRendererState where
  hasRenderer : Bool
  hasCamera : Bool
  hasRenderTarget : Bool
  hasPostMaterial : Bool
  cameraAspect : ℚ
  rendererWidth : ℚ
  rendererHeight : ℚ
  renderTargetWidth : ℚ
  renderTargetHeight : ℚ
  uResolution : Vec2
  uFontSize : ℚ
  uCharCount : ℚ
  uColor : Vec3
  uBgColor : Vec3
  fontTexture : ℕ
deriving DecidableEq, Repr

/-- `ThreeRenderer.resize(width, height)` with `window.devicePixelRatio`
passed explicitly as `dpr`: guard on the nullable fields, then set
`camera.aspect = width / height`, `renderer.setSize(width, height)`,
`renderTarget.setSize(width * dpr, height * dpr)`, and
`uResolution = (width * dpr, height * dpr)`. -/
def resize (s : ThreeRendererState) (width height dpr : ℚ) : ThreeRendererState :=
  if !s.hasRenderer || !s.hasCamera || !s.hasRenderTarget || !s.hasPostMaterial then s
  else
    { s with
      cameraAspect := width / height
      rendererWidth := width
      rendererHeight := height
      renderTargetWidth := width * dpr
      renderTargetHeight := height * dpr
      uResolution := ⟨width * dpr, height * dpr⟩ }

/-- C7: on an initialized renderer, `resize(w, h)` sets the resolution
uniform and the intermediate scene buffer size to `(w, h) * dpr` and leaves
`uFontSize`, the character count, text color, background color and the font
atlas unchanged. -/
theorem resize_sets_resolution_only (s : ThreeRendererState) (w h dpr : ℚ)
    (h1 : s.hasRenderer = true) (h2 : s.hasCamera = true)
    (h3 : s.hasRenderTarget = true) (h4 : s.hasPostMaterial = true) :
    (resize s w h dpr).uResolution = ⟨w * dpr, h * dpr⟩ ∧
      (resize s w h dpr).renderTargetWidth = w * dpr ∧
      (resize s w h dpr).renderTargetHeight = h * dpr ∧
      (resize s w h dpr).uFontSize = s.uFontSize ∧
      (resize s w h dpr).uCharCount = s.uCharCount ∧
      (resize s w h dpr).uColor = s.uColor ∧
      (resize s w h dpr).uBgColor = s.uBgColor ∧
      (resize s w h dpr).fontTexture = s.fontTexture := by
  simp [resize, h1, h2, h3, h4]

/-- A concrete initialized renderer state: 640x480 buffer, font size 10,
character count 9, white text over black. -/
def initState : ThreeRendererState :=
  ⟨true, true, true, true, 4 / 3, 640, 480, 640, 480, ⟨640, 480⟩, 10, 9,
    ⟨1, 1, 1⟩, ⟨0, 0, 0⟩, 0⟩

theorem resize_sets_resolution_only_witness :
    initState.hasRenderer = true ∧ initState.hasCamera = true ∧
      initState.hasRenderTarget = true ∧ initState.hasPostMaterial = true ∧
      ((resize initState 800 600 2).uResolution = ⟨800 * 2, 600 * 2⟩ ∧
        (resize initState 800 600 2).renderTargetWidth = 800 * 2 ∧
        (resize initState 800 600 2).renderTargetHeight = 600 * 2 ∧
        (resize initState 800 600 2).uFontSize = initState.uFontSize ∧
        (resize initState 800 600 2).uCharCount = initState.uCharCount ∧
        (resize initState 800 600 2).uColor = initState.uColor ∧
        (resize initState 800 600 2).uBgColor = initState.uBgColor ∧
        (resize initState 800 600 2).fontTexture = initState.fontTexture) :=
  ⟨rfl, rfl, rfl, rfl,
    resize_sets_resolution_only initState 800 600 2 rfl rfl rfl rfl⟩

/-- C8: `resize(0, 0)` on an initialized renderer is neither a no-op nor
clamped to a 1x1 minimum: it sets the resolution uniform and the render
target size to (0, 0), creating a degenerate zero-sized buffer. -/
theorem resize_zero_degenerate :
    (resize initState 0 0 1).uResolution = ⟨0, 0⟩ ∧
      (resize initState 0 0 1).renderTargetWidth = 0 ∧
      (resize initState 0 0 1).renderTargetHeight = 0 ∧
      resize initState 0 0 1 ≠ initState := by
  refine ⟨?_, ?_, ?_, ?_⟩
  · simp [resize, initState]
  · simp [resize, initState]
  · simp [resize, initState]
  · intro hEq
    have : (resize initState 0 0 1).renderTargetWidth = initState.renderTargetWidth :=
      congrArg ThreeRendererState.renderTargetWidth hEq
    rw [show (resize initState 0 0 1).renderTargetWidth = 0 by simp [resize, initState]]
      at this
    norm_num [initState] at this

/-- The atlas image produced by `createAsciiTexture`: a strip of
`charCount * fontSize` by `fontSize` pixels. -/
structure AtlasTexture where
  width : ℕ
  height : ℕ
deriving DecidableEq, Repr

/-- The glyph cell size used by both `createAsciiTexture` implementations:
`const fontSize = 64`. -/
def fontSize : ℕ := 64

/-- `createAsciiTexture`, with the availability of the 2D canvas context
passed as a flag: if `canvas.getContext('2d')` returns null the function
throws, otherwise it produces a `charCount * fontSize` by `fontSize`
texture strip. -/
def createAsciiTexture (ctx2dAvailable : Bool) : Except String AtlasTexture :=
  if !ctx2dAvailable then
    .error "Could not create 2D context for ASCII texture"
  else
    .ok ⟨charCount * fontSize, fontSize⟩

/-- C9: the font atlas builder fails (raises) if and only if the 2D
rasterization context cannot be created; on failure no texture is produced,
and on success the atlas strip has width `N * cellSize` and height
`cellSize` for ramp length `N`. -/
theorem createAsciiTexture_spec (ok : Bool) :
    ((∃ msg, createAsciiTexture ok = .error msg) ↔ ok = false) ∧
      (∀ t, createAsciiTexture ok = .ok t →
        t.width = charCount * fontSize ∧ t.height = fontSize) := by
  cases ok with
  | false =>
    refine ⟨⟨fun _ => rfl, fun _ => ⟨_, rfl⟩⟩, fun t ht => ?_⟩
    simp [createAsciiTexture] at ht
  | true =>
    refine ⟨⟨fun ⟨msg, hmsg⟩ => ?_, fun hfalse => by simp at hfalse⟩, fun t ht => ?_⟩
    · simp [createAsciiTexture] at hmsg
    · simp only [createAsciiTexture, Bool.not_true, Bool.false_eq_true, if_false,
        reduceIte, Except.ok.injEq] at ht
      rw [← ht]
      exact ⟨rfl, rfl⟩

theorem createAsciiTexture_spec_witness :
    createAsciiTexture true = .ok ⟨576, 64⟩ ∧
      ((⟨576, 64⟩ : AtlasTexture).width = charCount * fontSize ∧
        (⟨576, 64⟩ : AtlasTexture).height = fontSize) :=
  ⟨rfl, (createAsciiTexture_spec true).2 ⟨576, 64⟩ rfl⟩

/-- `fractQ` agrees with Mathlib's fractional part on `ℚ`. -/
lemma fractQ_eq_fract (x : ℚ) : fractQ x = Int.fract x := rfl

/-- The fractional part is nonnegative. -/
lemma fractQ_nonneg (x : ℚ) : 0 ≤ fractQ x := by
  rw [fractQ_eq_fract]; exact Int.fract_nonneg x

/-- The fractional part is below one. -/
lemma fractQ_lt_one (x : ℚ) : fractQ x < 1 := by
  rw [fractQ_eq_fract]; exact Int.fract_lt_one x

/-- For RGB channels in [0,1], the inverted luminance lies in [0,1]. -/
lemma luminanceOf_mem (r g b : ℚ) (hr0 : 0 ≤ r) (hr1 : r ≤ 1) (hg0 : 0 ≤ g)
    (hg1 : g ≤ 1) (hb0 : 0 ≤ b) (hb1 : b ≤ 1) :
    0 ≤ luminanceOf r g b ∧ luminanceOf r g b ≤ 1 := by
  unfold luminanceOf
  constructor <;> linarith

/-- C10: with the code's character count and a scene sample whose channels
lie in [0,1], the font-atlas sampling coordinates stay in range:
`fontU = (charIndex + uvInCell.x) / N` lies in [0,1) and
`fontV = uvInCell.y` lies in [0,1); the atlas is never addressed outside
its strip. -/
theorem font_uv_in_range (tDiffuse : Vec2 → Vec4) (params : AsciiParams)
    (uv : Vec2) (hn : params.uCharCount = (charCount : ℚ))
    (hu0 : 0 ≤ uv.x) (hu1 : uv.x < 1) (hv0 : 0 ≤ uv.y) (hv1 : uv.y < 1)
    (hr0 : 0 ≤ (gpuIntermediates tDiffuse params uv).sceneColor.r)
    (hr1 : (gpuIntermediates tDiffuse params uv).sceneColor.r ≤ 1)
    (hg0 : 0 ≤ (gpuIntermediates tDiffuse params uv).sceneColor.g)
    (hg1 : (gpuIntermediates tDiffuse params uv).sceneColor.g ≤ 1)
    (hb0 : 0 ≤ (gpuIntermediates tDiffuse params uv).sceneColor.b)
    (hb1 : (gpuIntermediates tDiffuse params uv).sceneColor.b ≤ 1) :
    (0 ≤ (gpuIntermediates tDiffuse params uv).fontU ∧
      (gpuIntermediates tDiffuse params uv).fontU < 1) ∧
    (0 ≤ (gpuIntermediates tDiffuse params uv).fontV ∧
      (gpuIntermediates tDiffuse params uv).fontV < 1) := by
  have h9 : (charCount : ℚ) = 9 := by norm_num [charCount_eq]
  have hfu : (gpuIntermediates tDiffuse params uv).fontU =
      (charIndexOf params.uCharCount
          (luminanceOf (gpuIntermediates tDiffuse params uv).sceneColor.r
            (gpuIntermediates tDiffuse params uv).sceneColor.g
            (gpuIntermediates tDiffuse params uv).sceneColor.b) +
        fractQ (uv.x * (params.uResolution.x / params.uFontSize))) /
        params.uCharCount := rfl
  have hfv : (gpuIntermediates tDiffuse params uv).fontV =
      fractQ (uv.y * (params.uResolution.y / params.uFontSize)) := rfl
  obtain ⟨hl0, hl1⟩ :=
    luminanceOf_mem _ _ _ hr0 hr1 hg0 hg1 hb0 hb1
  obtain ⟨hc0, hc1⟩ :=
    charIndexOf_bounds params.uCharCount
      (luminanceOf (gpuIntermediates tDiffuse params uv).sceneColor.r
        (gpuIntermediates tDiffuse params uv).sceneColor.g
        (gpuIntermediates tDiffuse params uv).sceneColor.b)
      hl0 hl1 (by rw [hn, h9]; norm_num)
  have hf0 := fractQ_nonneg (uv.x * (params.uResolution.x / params.uFontSize))
  have hf1 := fractQ_lt_one (uv.x * (params.uResolution.x / params.uFontSize))
  have hnpos : (0 : ℚ) < params.uCharCount := by rw [hn, h9]; norm_num
  refine ⟨⟨?_, ?_⟩, ?_, ?_⟩
  · rw [hfu]
    exact div_nonneg (by linarith) (le_of_lt hnpos)
  · rw [hfu]
    exact (div_lt_one hnpos).mpr (by linarith)
  · rw [hfv]
    exact fractQ_nonneg _
  · rw [hfv]
    exact fractQ_lt_one _

/-- A uniform mid-gray scene texture with full alpha, for the C10 witness. -/
def grayScene : Vec2 → Vec4 := fun _ => ⟨1 / 2, 1 / 2, 1 / 2, 1⟩

/-- The parameter block of the repository's configuration: character count 9,
font size 10, a 640x480 resolution, white text over black. -/
def stdParams : AsciiParams :=
  ⟨(charCount : ℚ), 10, ⟨640, 480⟩, ⟨1, 1, 1⟩, ⟨0, 0, 0⟩⟩

theorem font_uv_in_range_witness :
    stdParams.uCharCount = (charCount : ℚ) ∧
      (0 ≤ (⟨1 / 2, 1 / 2⟩ : Vec2).x ∧ (⟨1 / 2, 1 / 2⟩ : Vec2).x < 1 ∧
        0 ≤ (⟨1 / 2, 1 / 2⟩ : Vec2).y ∧ (⟨1 / 2, 1 / 2⟩ : Vec2).y < 1) ∧
      (0 ≤ (gpuIntermediates grayScene stdParams ⟨1 / 2, 1 / 2⟩).sceneColor.r ∧
        (gpuIntermediates grayScene stdParams ⟨1 / 2, 1 / 2⟩).sceneColor.r ≤ 1 ∧
        0 ≤ (gpuIntermediates grayScene stdParams ⟨1 / 2, 1 / 2⟩).sceneColor.g ∧
        (gpuIntermediates grayScene stdParams ⟨1 / 2, 1 / 2⟩).sceneColor.g ≤ 1 ∧
        0 ≤ (gpuIntermediates grayScene stdParams ⟨1 / 2, 1 / 2⟩).sceneColor.b ∧
        (gpuIntermediates grayScene stdParams ⟨1 / 2, 1 / 2⟩).sceneColor.b ≤ 1) ∧
      ((0 ≤ (gpuIntermediates grayScene stdParams ⟨1 / 2, 1 / 2⟩).fontU ∧
          (gpuIntermediates grayScene stdParams ⟨1 / 2, 1 / 2⟩).fontU < 1) ∧
        (0 ≤ (gpuIntermediates grayScene stdParams ⟨1 / 2, 1 / 2⟩).fontV ∧
          (gpuIntermediates grayScene stdParams ⟨1 / 2, 1 / 2⟩).fontV < 1)) :=
  ⟨rfl,
    ⟨by norm_num, by norm_num, by norm_num, by norm_num⟩,
    ⟨by show (0 : ℚ) ≤ 1 / 2; norm_num, by show (1 : ℚ) / 2 ≤ 1; norm_num,
      by show (0 : ℚ) ≤ 1 / 2; norm_num, by show (1 : ℚ) / 2 ≤ 1; norm_num,
      by show (0 : ℚ) ≤ 1 / 2; norm_num, by show (1 : ℚ) / 2 ≤ 1; norm_num⟩,
    font_uv_in_range grayScene stdParams ⟨1 / 2, 1 / 2⟩ rfl
      (by norm_num) (by norm_num) (by norm_num) (by norm_num)
      (by show (0 : ℚ) ≤ 1 / 2; norm_num) (by show (1 : ℚ) / 2 ≤ 1; norm_num)
      (by show (0 : ℚ) ≤ 1 / 2; norm_num) (by show (1 : ℚ) / 2 ≤ 1; norm_num)
      (by show (0 : ℚ) ≤ 1 / 2; norm_num) (by show (1 : ℚ) / 2 ≤ 1; norm_num)⟩
